import Mathlib

/-!
Verification of the `pg_stat_statements` collector of `postgres_exporter`.

The repository contains two variants of the same collector file:

* Variant A (`collector/pg_stat_statements.go`): streams each scanned row
  directly into six counter metrics; the cursor is released by
  `defer rows.Close()`.
* Variant B (`unnamed/part_000`): buffers the whole batch, closes the
  cursor, issues `pg_stat_statements_reset()` (ignoring its result), then
  emits the buffered batch.  There is no `defer rows.Close()` in this
  variant.

We embed both `Update` functions as pure functions from the database
driver's responses (query outcome, per-row `Scan` outcomes, post-loop
`rows.Err()`, reset outcome) to a trace of observable events plus the
returned error.  Go `float64` values are modelled as rationals (`Rat`):
the collector never computes with floats, it only passes driver-supplied
values through (or substitutes `0`), and `float64(int64)` widening is
modelled by the exact cast `Int → Rat`.

`database/sql` semantics used by the model:
* `Rows.Next` returning `false` (end of rows, or an iteration error later
  reported by `Rows.Err`) automatically closes the `Rows`; a subsequent
  explicit `Rows.Close` is an idempotent no-op.
* A `Scan` error does NOT close the `Rows`; only a `defer rows.Close()`
  (present in Variant A, absent in Variant B) closes it on that exit path.
* `Scan` fails when the number of destination arguments differs from the
  number of result columns of the query.
-/

/-- Go `sql.NullString`. -/
structure NullString where
  valid : Bool
  string : String
deriving DecidableEq, Repr

/-- Go `sql.NullInt64` (the Go `int64` payload modelled as `Int`; no
arithmetic is performed on it by the collector). -/
structure NullInt64 where
  valid : Bool
  int64 : Int
deriving DecidableEq, Repr

/-- Go `sql.NullFloat64` (the `float64` payload modelled as `Rat`). -/
structure NullFloat64 where
  valid : Bool
  float64 : Rat
deriving DecidableEq, Repr

/-- One scanned row, as declared by Variant B's `pgStatStatementsRow`
struct; Variant A scans the same nine destinations as loop-local
variables. -/
structure pgStatStatementsRow where
  user : NullString
  datname : NullString
  query : NullString
  callsTotal : NullInt64
  meanSecondsTotal : NullFloat64
  maxSecondsTotal : NullFloat64
  rowsTotal : NullInt64
  blockReadSecondsTotal : NullFloat64
  blockWriteSecondsTotal : NullFloat64
deriving DecidableEq, Repr

/-- A Prometheus metric descriptor: the metric-name component passed to
`prometheus.BuildFQName` and the variable label names. -/
structure MetricDesc where
  metricName : String
  variableLabels : List String
deriving DecidableEq, Repr

/-- One emitted observation: `prometheus.MustNewConstMetric(desc,
prometheus.CounterValue, value, user, datname, query)`.  All six emissions
of the collector are counters, so the value type is not recorded. -/
structure Metric where
  desc : MetricDesc
  value : Rat
  labels : String × String × String
deriving DecidableEq, Repr

/-- The six metric descriptors a variant uses, in emission order. -/
structure VariantDescs where
  callsTotal : MetricDesc
  meanSecondsTotal : MetricDesc
  maxSecondsTotal : MetricDesc
  rowsTotal : MetricDesc
  blockReadSecondsTotal : MetricDesc
  blockWriteSecondsTotal : MetricDesc
deriving DecidableEq, Repr

def statStatementsSubsystem : String := "stat_statements"

namespace VariantA

def statSTatementsCallsTotal : MetricDesc :=
  ⟨"calls_total", ["user", "datname", "queryid"]⟩

def statStatementsMeanSecondsTotal : MetricDesc :=
  ⟨"mean_seconds_total", ["user", "datname", "queryid"]⟩

def statStatementsMaxSecondsTotal : MetricDesc :=
  ⟨"max_seconds_total", ["user", "datname", "queryid"]⟩

def statStatementsRowsTotal : MetricDesc :=
  ⟨"rows_total", ["user", "datname", "queryid"]⟩

def statStatementsBlockReadSecondsTotal : MetricDesc :=
  ⟨"block_read_seconds_total", ["user", "datname", "queryid"]⟩

def statStatementsBlockWriteSecondsTotal : MetricDesc :=
  ⟨"block_write_seconds_total", ["user", "datname", "queryid"]⟩

def descs : VariantDescs :=
  ⟨statSTatementsCallsTotal, statStatementsMeanSecondsTotal,
   statStatementsMaxSecondsTotal, statStatementsRowsTotal,
   statStatementsBlockReadSecondsTotal, statStatementsBlockWriteSecondsTotal⟩

/-- The output-column aliases of Variant A's `pgStatStatementsQuery`
(`SELECT ... FROM pg_stat_statements JOIN pg_database ...`), in order.
Note there is no `rows_total` column in this variant's query. -/
def pgStatStatementsQueryColumns : List String :=
  ["user", "datname", "queryid", "calls_total", "mean_seconds_total",
   "max_seconds_total", "block_read_seconds_total",
   "block_write_seconds_total"]

/-- The number of destination arguments Variant A passes to `rows.Scan`
(`&user, &datname, &queryid, &callsTotal, &meanSecondsTotal,
&maxSecondsTotal, &rowsTotal, &blockReadSecondsTotal,
&blockWriteSecondsTotal`). -/
def scanDestinationCount : Nat := 9

end VariantA

namespace VariantB

def statSTatementsCallsTotal : MetricDesc :=
  ⟨"calls_total", ["user", "datname", "query"]⟩

def statStatementsMeanSecondsTotal : MetricDesc :=
  ⟨"mean_seconds_total", ["user", "datname", "query"]⟩

def statStatementsMaxSecondsTotal : MetricDesc :=
  ⟨"max_seconds_total", ["user", "datname", "query"]⟩

def statStatementsRowsTotal : MetricDesc :=
  ⟨"rows_total", ["user", "datname", "query"]⟩

def statStatementsBlockReadSecondsTotal : MetricDesc :=
  ⟨"block_read_seconds_total", ["user", "datname", "query"]⟩

def statStatementsBlockWriteSecondsTotal : MetricDesc :=
  ⟨"block_write_seconds_total", ["user", "datname", "query"]⟩

def descs : VariantDescs :=
  ⟨statSTatementsCallsTotal, statStatementsMeanSecondsTotal,
   statStatementsMaxSecondsTotal, statStatementsRowsTotal,
   statStatementsBlockReadSecondsTotal, statStatementsBlockWriteSecondsTotal⟩

/-- The output-column aliases of Variant B's `pgStatStatementsQuery`,
in order; this variant selects `pg_stat_statements.rows as rows_total`
as its seventh column. -/
def pgStatStatementsQueryColumns : List String :=
  ["user", "datname", "query", "calls_total", "mean_seconds_total",
   "max_seconds_total", "rows_total", "block_read_seconds_total",
   "block_write_seconds_total"]

/-- The number of destination arguments Variant B passes to `rows.Scan`. -/
def scanDestinationCount : Nat := 9

end VariantB

/-- `database/sql`: `Rows.Scan` first checks that the number of
destination arguments equals the number of result columns; on mismatch it
returns an error without decoding, otherwise the decode outcome stands. -/
def scanWithArity (columns destinations : Nat)
    (decode : Except Unit pgStatStatementsRow) :
    Except Unit pgStatStatementsRow :=
  if columns = destinations then decode else Except.error ()

/-- Per-row conversion to the six counter observations.  Both variants
contain this code textually identically (Variant A inline in its read
loop, Variant B in its emission loop over the buffered batch); only the
descriptor handles differ, so it is embedded once, parameterised by the
variant's descriptors. -/
def rowMetrics (d : VariantDescs) (row : pgStatStatementsRow) : List Metric :=
  let userLabel := if row.user.valid then row.user.string else "unknown"
  let datnameLabel := if row.datname.valid then row.datname.string else "unknown"
  let queryLabel := if row.query.valid then row.query.string else "unknown"
  let callsTotalMetric : Rat :=
    if row.callsTotal.valid then (row.callsTotal.int64 : Rat) else 0
  let meanSecondsTotalMetric : Rat :=
    if row.meanSecondsTotal.valid then row.meanSecondsTotal.float64 else 0
  let maxSecondsTotalMetric : Rat :=
    if row.maxSecondsTotal.valid then row.maxSecondsTotal.float64 else 0
  let rowsTotalMetric : Rat :=
    if row.rowsTotal.valid then (row.rowsTotal.int64 : Rat) else 0
  let blockReadSecondsTotalMetric : Rat :=
    if row.blockReadSecondsTotal.valid then row.blockReadSecondsTotal.float64 else 0
  let blockWriteSecondsTotalMetric : Rat :=
    if row.blockWriteSecondsTotal.valid then row.blockWriteSecondsTotal.float64 else 0
  [⟨d.callsTotal, callsTotalMetric, (userLabel, datnameLabel, queryLabel)⟩,
   ⟨d.meanSecondsTotal, meanSecondsTotalMetric, (userLabel, datnameLabel, queryLabel)⟩,
   ⟨d.maxSecondsTotal, maxSecondsTotalMetric, (userLabel, datnameLabel, queryLabel)⟩,
   ⟨d.rowsTotal, rowsTotalMetric, (userLabel, datnameLabel, queryLabel)⟩,
   ⟨d.blockReadSecondsTotal, blockReadSecondsTotalMetric, (userLabel, datnameLabel, queryLabel)⟩,
   ⟨d.blockWriteSecondsTotal, blockWriteSecondsTotalMetric, (userLabel, datnameLabel, queryLabel)⟩]

/-- Observable steps of one `Update` cycle. -/
inductive Event where
  /-- Execution of `db.QueryContext(ctx, pgStatStatementsQuery)`; `ok`
  records whether it succeeded. -/
  | queryExec (ok : Bool)
  /-- One `rows.Scan(...)` call; `ok` records whether it succeeded. -/
  | rowScan (ok : Bool)
  /-- Release of the cursor, whether by `rows.Close()`, by `defer`, or by
  the automatic close `database/sql` performs when `Next` returns
  `false`. -/
  | cursorClose
  /-- Execution of `db.ExecContext(ctx, pgStatStatementsReset)`; `ok`
  records the command's outcome (which Variant B does not inspect). -/
  | resetExec (ok : Bool)
  /-- One `ch <- prometheus.MustNewConstMetric(...)` push. -/
  | emit (m : Metric)
deriving DecidableEq, Repr

/-- What the driver returns after a successful `QueryContext`: the
`Scan` outcome of each row `Next` will deliver, in cursor order, and
whether `rows.Err()` reports an iteration error after the last delivered
row. -/
structure RowsHandle where
  scans : List (Except Unit pgStatStatementsRow)
  iterErr : Bool
deriving Repr

/-- Result of one `Update` call: the event trace and whether the returned
`error` was non-nil. -/
structure UpdateResult where
  trace : List Event
  err : Bool
deriving DecidableEq, Repr

/-- The metrics pushed to the channel, in order. -/
def emitted (trace : List Event) : List Metric :=
  trace.filterMap (fun e => match e with | Event.emit m => some m | _ => none)

namespace VariantA

/-- The read loop of Variant A's `Update`: scan a row, emit its six
metrics, repeat; stop at the first `Scan` error.  Returns the events of
the loop and whether a `Scan` error aborted it. -/
def readLoop : List (Except Unit pgStatStatementsRow) → List Event × Bool
  | [] => ([], false)
  | Except.ok row :: rest =>
      let (evs, failed) := readLoop rest
      (Event.rowScan true :: (rowMetrics descs row).map Event.emit ++ evs, failed)
  | Except.error _ :: _ => ([Event.rowScan false], true)

/-- Variant A's `Update` (collector/pg_stat_statements.go): query, then
`defer rows.Close()`, then stream each row into six metrics, then check
`rows.Err()`. -/
def Update (queryResult : Except Unit RowsHandle) : UpdateResult :=
  match queryResult with
  | Except.error _ => ⟨[Event.queryExec false], true⟩
  | Except.ok rows =>
      let (evs, scanFailed) := readLoop rows.scans
      if scanFailed then
        -- early return inside the loop: the deferred Close releases the
        -- cursor on the way out
        ⟨Event.queryExec true :: evs ++ [Event.cursorClose], true⟩
      else
        -- Next returned false: the cursor is closed automatically, then
        -- rows.Err() decides the result (the deferred Close is a no-op)
        ⟨Event.queryExec true :: evs ++ [Event.cursorClose], rows.iterErr⟩

end VariantA

namespace VariantB

/-- The buffering loop of Variant B's `Update`: scan each row into a
`pgStatStatementsRow` and append it to `rowMetrics` (the batch slice);
stop at the first `Scan` error.  Returns the loop's events and `some
batch` when every scan succeeded, `none` when a scan failed. -/
def readLoop : List (Except Unit pgStatStatementsRow) →
    List Event × Option (List pgStatStatementsRow)
  | [] => ([], some [])
  | Except.ok row :: rest =>
      let (evs, buf) := readLoop rest
      (Event.rowScan true :: evs, buf.map (fun b => row :: b))
  | Except.error _ :: _ => ([Event.rowScan false], none)

/-- Variant B's `Update` (unnamed/part_000): query, buffer the whole
batch, check `rows.Err()`, `rows.Close()`, issue
`pg_stat_statements_reset()` discarding its result, then emit the
buffered batch.  There is no `defer rows.Close()`: the `Scan`-error
return leaves the cursor open. -/
def Update (queryResult : Except Unit RowsHandle) (resetOk : Bool) :
    UpdateResult :=
  match queryResult with
  | Except.error _ => ⟨[Event.queryExec false], true⟩
  | Except.ok rows =>
      match readLoop rows.scans with
      | (evs, none) =>
          -- scan error: return err with no Close on this path
          ⟨Event.queryExec true :: evs, true⟩
      | (evs, some batch) =>
          if rows.iterErr then
            -- Next returned false closing the cursor, rows.Err() is
            -- non-nil: return it
            ⟨Event.queryExec true :: evs ++ [Event.cursorClose], true⟩
          else
            -- cursor already closed when Next returned false; the
            -- explicit rows.Close() is an idempotent no-op; the reset's
            -- outcome is not inspected; then the batch is emitted
            ⟨Event.queryExec true :: evs ++
              [Event.cursorClose, Event.resetExec resetOk] ++
              (batch.map (fun row => (rowMetrics descs row).map Event.emit)).flatten,
             false⟩

end VariantB

/-! ### Trace predicates -/

def isRowScan : Event → Bool
  | Event.rowScan _ => true
  | _ => false

def isCursorClose : Event → Bool
  | Event.cursorClose => true
  | _ => false

def isReset : Event → Bool
  | Event.resetExec _ => true
  | _ => false

def isEmit : Event → Bool
  | Event.emit _ => true
  | _ => false

/-- How many times the reset command appears in a trace. -/
def resetCount (trace : List Event) : Nat := trace.countP isReset

/-- Holds when no row scan and no cursor close occurs at any position
after a reset command: every reset is strictly after the last scan and
after the close. -/
def resetAfterReads : List Event → Bool
  | [] => true
  | Event.resetExec _ :: rest =>
      rest.all (fun e => !(isRowScan e || isCursorClose e)) && resetAfterReads rest
  | _ :: rest => resetAfterReads rest

/-- Holds (starting from `seenClose`) when every reset command in the
trace is preceded by some cursor close. -/
def closeBeforeReset (seenClose : Bool) : List Event → Bool
  | [] => true
  | Event.resetExec _ :: rest => seenClose && closeBeforeReset seenClose rest
  | Event.cursorClose :: rest => closeBeforeReset true rest
  | _ :: rest => closeBeforeReset seenClose rest

/-! ### Shape lemmas for the two `Update` embeddings -/

theorem emitted_append (a b : List Event) :
    emitted (a ++ b) = emitted a ++ emitted b := by
  simp [emitted, List.filterMap_append]

theorem emitted_map_emit (l : List Metric) :
    emitted (l.map Event.emit) = l := by
  induction l with
  | nil => rfl
  | cons m rest ih => simp [emitted] at ih ⊢; exact ih

theorem VariantA.readLoop_ok_A (rows : List pgStatStatementsRow) :
    VariantA.readLoop (rows.map Except.ok) =
      ((rows.map (fun r =>
        Event.rowScan true :: (rowMetrics VariantA.descs r).map Event.emit)).flatten,
       false) := by
  induction rows with
  | nil => rfl
  | cons r rest ih => simp [VariantA.readLoop, ih]

theorem VariantA.update_ok_eq_A (rows : List pgStatStatementsRow) (iterErr : Bool) :
    VariantA.Update (Except.ok ⟨rows.map Except.ok, iterErr⟩) =
      ⟨Event.queryExec true ::
        (rows.map (fun r =>
          Event.rowScan true :: (rowMetrics VariantA.descs r).map Event.emit)).flatten ++
        [Event.cursorClose],
       iterErr⟩ := by
  simp [VariantA.Update, VariantA.readLoop_ok_A]

theorem VariantB.readLoop_ok_B (rows : List pgStatStatementsRow) :
    VariantB.readLoop (rows.map Except.ok) =
      (rows.map (fun _ => Event.rowScan true), some rows) := by
  induction rows with
  | nil => rfl
  | cons r rest ih => simp [VariantB.readLoop, ih]

theorem VariantB.update_ok_eq_B (rows : List pgStatStatementsRow) (resetOk : Bool) :
    VariantB.Update (Except.ok ⟨rows.map Except.ok, false⟩) resetOk =
      ⟨Event.queryExec true :: rows.map (fun _ => Event.rowScan true) ++
        [Event.cursorClose, Event.resetExec resetOk] ++
        (rows.map (fun r => (rowMetrics VariantB.descs r).map Event.emit)).flatten,
       false⟩ := by
  simp [VariantB.Update, VariantB.readLoop_ok_B]

theorem VariantB.readLoop_all_scan (scans : List (Except Unit pgStatStatementsRow)) :
    ((VariantB.readLoop scans).1).all isRowScan = true := by
  induction scans with
  | nil => rfl
  | cons s rest ih =>
      cases s with
      | ok row => simp [VariantB.readLoop, isRowScan, ih]
      | error e => simp [VariantB.readLoop, isRowScan]

theorem all_scan_map_rowScan (rows : List pgStatStatementsRow) :
    (rows.map (fun _ => Event.rowScan true)).all isRowScan = true := by
  simp [List.all_map, isRowScan]

theorem emit_events_all_emit (d : VariantDescs) (rows : List pgStatStatementsRow) :
    ((rows.map (fun r => (rowMetrics d r).map Event.emit)).flatten).all isEmit = true := by
  induction rows with
  | nil => rfl
  | cons r rest ih => simp [List.all_append, List.all_map, isEmit, ih]

theorem resetAfterReads_append_scans (a b : List Event)
    (h : a.all isRowScan = true) :
    resetAfterReads (a ++ b) = resetAfterReads b := by
  induction a with
  | nil => rfl
  | cons e rest ih =>
      cases e with
      | rowScan ok =>
          simp only [List.all_cons, Bool.and_eq_true] at h
          simpa [resetAfterReads] using ih h.2
      | queryExec ok => simp [isRowScan] at h
      | cursorClose => simp [isRowScan] at h
      | resetExec ok => simp [isRowScan] at h
      | emit m => simp [isRowScan] at h

theorem no_scan_close_of_all_emit (evs : List Event)
    (h : evs.all isEmit = true) :
    evs.all (fun e => !(isRowScan e || isCursorClose e)) = true := by
  induction evs with
  | nil => rfl
  | cons e rest ih =>
      cases e with
      | emit m =>
          simp only [List.all_cons, Bool.and_eq_true] at h
          simpa [isRowScan, isCursorClose] using ih h.2
      | queryExec ok => simp [isEmit] at h
      | rowScan ok => simp [isEmit] at h
      | cursorClose => simp [isEmit] at h
      | resetExec ok => simp [isEmit] at h

theorem resetAfterReads_all_emit (evs : List Event)
    (h : evs.all isEmit = true) :
    resetAfterReads evs = true := by
  induction evs with
  | nil => rfl
  | cons e rest ih =>
      cases e with
      | emit m =>
          simp only [List.all_cons, Bool.and_eq_true] at h
          simpa [resetAfterReads] using ih h.2
      | queryExec ok => simp [isEmit] at h
      | rowScan ok => simp [isEmit] at h
      | cursorClose => simp [isEmit] at h
      | resetExec ok => simp [isEmit] at h

theorem resetAfterReads_scans (a : List Event) (h : a.all isRowScan = true) :
    resetAfterReads a = true := by
  have := resetAfterReads_append_scans a [] h
  simpa using this

theorem closeBeforeReset_append_scans (a b : List Event) (seen : Bool)
    (h : a.all isRowScan = true) :
    closeBeforeReset seen (a ++ b) = closeBeforeReset seen b := by
  induction a with
  | nil => rfl
  | cons e rest ih =>
      cases e with
      | rowScan ok =>
          simp only [List.all_cons, Bool.and_eq_true] at h
          simpa [closeBeforeReset] using ih h.2
      | queryExec ok => simp [isRowScan] at h
      | cursorClose => simp [isRowScan] at h
      | resetExec ok => simp [isRowScan] at h
      | emit m => simp [isRowScan] at h

theorem closeBeforeReset_all_emit (evs : List Event) (seen : Bool)
    (h : evs.all isEmit = true) :
    closeBeforeReset seen evs = true := by
  induction evs with
  | nil => rfl
  | cons e rest ih =>
      cases e with
      | emit m =>
          simp only [List.all_cons, Bool.and_eq_true] at h
          simpa [closeBeforeReset] using ih h.2
      | queryExec ok => simp [isEmit] at h
      | rowScan ok => simp [isEmit] at h
      | cursorClose => simp [isEmit] at h
      | resetExec ok => simp [isEmit] at h

theorem closeBeforeReset_scans (a : List Event) (seen : Bool)
    (h : a.all isRowScan = true) :
    closeBeforeReset seen a = true := by
  have := closeBeforeReset_append_scans a [] seen h
  simpa using this

theorem resetCount_append (a b : List Event) :
    resetCount (a ++ b) = resetCount a + resetCount b := by
  simp [resetCount, List.countP_append]

theorem resetCount_scans (a : List Event) (h : a.all isRowScan = true) :
    resetCount a = 0 := by
  induction a with
  | nil => rfl
  | cons e rest ih =>
      cases e with
      | rowScan ok =>
          simp only [List.all_cons, Bool.and_eq_true] at h
          simpa [resetCount, List.countP_cons, isReset] using ih h.2
      | queryExec ok => simp [isRowScan] at h
      | cursorClose => simp [isRowScan] at h
      | resetExec ok => simp [isRowScan] at h
      | emit m => simp [isRowScan] at h

theorem resetCount_all_emit (evs : List Event) (h : evs.all isEmit = true) :
    resetCount evs = 0 := by
  induction evs with
  | nil => rfl
  | cons e rest ih =>
      cases e with
      | emit m =>
          simp only [List.all_cons, Bool.and_eq_true] at h
          simpa [resetCount, List.countP_cons, isReset] using ih h.2
      | queryExec ok => simp [isEmit] at h
      | rowScan ok => simp [isEmit] at h
      | cursorClose => simp [isEmit] at h
      | resetExec ok => simp [isEmit] at h

theorem emitted_cons_of_not_emit (e : Event) (l : List Event)
    (h : isEmit e = false) : emitted (e :: l) = emitted l := by
  cases e <;> simp_all [emitted, isEmit]

theorem emitted_nil : emitted [] = [] := rfl

theorem resetCount_cons_queryExec (b : Bool) (l : List Event) :
    resetCount (Event.queryExec b :: l) = resetCount l := by
  simp [resetCount, List.countP_cons, isReset]

theorem resetCount_close_reset (b : Bool) :
    resetCount [Event.cursorClose, Event.resetExec b] = 1 := rfl

theorem resetCount_close : resetCount [Event.cursorClose] = 0 := rfl

/-- Unfolding of Variant B's `Update` when a `Scan` fails: the error is
returned with no cursor close. -/
theorem VariantB.update_scan_err_B (scans : List (Except Unit pgStatStatementsRow))
    (iterErr resetOk : Bool) (evs : List Event)
    (h : VariantB.readLoop scans = (evs, none)) :
    VariantB.Update (Except.ok ⟨scans, iterErr⟩) resetOk =
      ⟨Event.queryExec true :: evs, true⟩ := by
  simp [VariantB.Update, h]

/-- Unfolding of Variant B's `Update` when every `Scan` succeeds but
`rows.Err()` reports an iteration error. -/
theorem VariantB.update_iter_err (scans : List (Except Unit pgStatStatementsRow))
    (resetOk : Bool) (evs : List Event) (batch : List pgStatStatementsRow)
    (h : VariantB.readLoop scans = (evs, some batch)) :
    VariantB.Update (Except.ok ⟨scans, true⟩) resetOk =
      ⟨Event.queryExec true :: evs ++ [Event.cursorClose], true⟩ := by
  simp [VariantB.Update, h]

/-- Unfolding of Variant B's `Update` on a fully successful read. -/
theorem VariantB.update_full (scans : List (Except Unit pgStatStatementsRow))
    (resetOk : Bool) (evs : List Event) (batch : List pgStatStatementsRow)
    (h : VariantB.readLoop scans = (evs, some batch)) :
    VariantB.Update (Except.ok ⟨scans, false⟩) resetOk =
      ⟨Event.queryExec true :: evs ++
        [Event.cursorClose, Event.resetExec resetOk] ++
        (batch.map (fun row => (rowMetrics VariantB.descs row).map Event.emit)).flatten,
       false⟩ := by
  simp [VariantB.Update, h]

/-- Unfolding of Variant A's `Update` when a `Scan` fails: the deferred
Close still releases the cursor. -/
theorem VariantA.update_scan_err_A (scans : List (Except Unit pgStatStatementsRow))
    (iterErr : Bool) (evs : List Event)
    (h : VariantA.readLoop scans = (evs, true)) :
    VariantA.Update (Except.ok ⟨scans, iterErr⟩) =
      ⟨Event.queryExec true :: evs ++ [Event.cursorClose], true⟩ := by
  simp [VariantA.Update, h]

/-- Unfolding of Variant A's `Update` when the loop drains the cursor:
the result is decided by `rows.Err()`. -/
theorem VariantA.update_drained (scans : List (Except Unit pgStatStatementsRow))
    (iterErr : Bool) (evs : List Event)
    (h : VariantA.readLoop scans = (evs, false)) :
    VariantA.Update (Except.ok ⟨scans, iterErr⟩) =
      ⟨Event.queryExec true :: evs ++ [Event.cursorClose], iterErr⟩ := by
  simp [VariantA.Update, h]

/-- The metrics emitted from a buffered batch, in order. -/
theorem emitted_flatten_map (d : VariantDescs) (rows : List pgStatStatementsRow) :
    emitted ((rows.map (fun r => (rowMetrics d r).map Event.emit)).flatten) =
      (rows.map (rowMetrics d)).flatten := by
  induction rows with
  | nil => rfl
  | cons r rest ih =>
      simp only [List.map_cons, List.flatten_cons]
      rw [emitted_append, emitted_map_emit, ih]

theorem emitted_scanEvents (rows : List pgStatStatementsRow) :
    emitted (rows.map (fun _ => Event.rowScan true)) = [] := by
  induction rows with
  | nil => rfl
  | cons r rest ih =>
      simp only [List.map_cons]
      rw [emitted_cons_of_not_emit (Event.rowScan true) _ rfl, ih]

/-- The metrics emitted by a streamed batch of Variant A's read loop. -/
theorem emitted_block_flatten (d : VariantDescs) (rows : List pgStatStatementsRow) :
    emitted ((rows.map (fun r =>
      Event.rowScan true :: (rowMetrics d r).map Event.emit)).flatten) =
      (rows.map (rowMetrics d)).flatten := by
  induction rows with
  | nil => rfl
  | cons r rest ih =>
      simp only [List.map_cons, List.flatten_cons, List.cons_append]
      rw [emitted_cons_of_not_emit (Event.rowScan true) _ rfl, emitted_append,
        emitted_map_emit, ih]

theorem emitted_variantA_ok (rows : List pgStatStatementsRow) (iterErr : Bool) :
    emitted (VariantA.Update (Except.ok ⟨rows.map Except.ok, iterErr⟩)).trace =
      (rows.map (rowMetrics VariantA.descs)).flatten := by
  rw [VariantA.update_ok_eq_A]
  rw [emitted_append, emitted_cons_of_not_emit (Event.queryExec true) _ rfl,
    emitted_block_flatten]
  simp [emitted]

theorem emitted_variantB_ok (rows : List pgStatStatementsRow) (resetOk : Bool) :
    emitted (VariantB.Update (Except.ok ⟨rows.map Except.ok, false⟩) resetOk).trace =
      (rows.map (rowMetrics VariantB.descs)).flatten := by
  rw [VariantB.update_ok_eq_B]
  rw [emitted_append, emitted_append,
    emitted_cons_of_not_emit (Event.queryExec true) _ rfl,
    emitted_scanEvents, emitted_flatten_map]
  simp [emitted]

theorem emitted_close_reset (b : Bool) :
    emitted [Event.cursorClose, Event.resetExec b] = [] := rfl

theorem length_flatten_rowMetrics (d : VariantDescs) (rows : List pgStatStatementsRow) :
    ((rows.map (rowMetrics d)).flatten).length = 6 * rows.length := by
  induction rows with
  | nil => rfl
  | cons r rest ih =>
      have h6 : (rowMetrics d r).length = 6 := rfl
      simp only [List.map_cons, List.flatten_cons, List.length_append, h6, ih,
        List.length_cons]
      ring

/-- C7: if the query returns zero rows, both variants push zero
observations to the sink and return success (nil error). -/
theorem claim_C7_empty_batch (resetOk : Bool) :
    emitted (VariantA.Update (Except.ok ⟨[], false⟩)).trace = [] ∧
    (VariantA.Update (Except.ok ⟨[], false⟩)).err = false ∧
    emitted (VariantB.Update (Except.ok ⟨[], false⟩) resetOk).trace = [] ∧
    (VariantB.Update (Except.ok ⟨[], false⟩) resetOk).err = false := by
  cases resetOk <;> exact ⟨rfl, rfl, rfl, rfl⟩

/-- C8: if the query execution itself fails, both variants push no
observations and return a non-nil error, and Variant B never issues the
reset command in that case. -/
theorem claim_C8_query_failfast (resetOk : Bool) :
    VariantA.Update (Except.error ()) = ⟨[Event.queryExec false], true⟩ ∧
    VariantB.Update (Except.error ()) resetOk = ⟨[Event.queryExec false], true⟩ ∧
    emitted (VariantB.Update (Except.error ()) resetOk).trace = [] ∧
    resetCount (VariantB.Update (Except.error ()) resetOk).trace = 0 := by
  exact ⟨rfl, rfl, rfl, rfl⟩

/-- C10: Variant B issues the reset command exactly once on every cycle
whose query and row reads all succeed, the empty result set included:
the reset is unconditional on the batch being non-empty. -/
theorem claim_C10_reset_unconditional (rows : List pgStatStatementsRow)
    (resetOk : Bool) :
    resetCount (VariantB.Update (Except.ok ⟨rows.map Except.ok, false⟩) resetOk).trace = 1 ∧
    (VariantB.Update (Except.ok ⟨rows.map Except.ok, false⟩) resetOk).err = false := by
  rw [VariantB.update_ok_eq_B]
  refine ⟨?_, rfl⟩
  rw [resetCount_append, resetCount_append, resetCount_cons_queryExec,
    resetCount_scans _ (all_scan_map_rowScan rows),
    resetCount_close_reset,
    resetCount_all_emit _ (emit_events_all_emit VariantB.descs rows)]

/-- C4: for every batch of N successfully scanned rows, a successful
`Update` pushes exactly 6 × N observations to the sink, in both
variants. -/
theorem claim_C4_six_observations_per_row (rows : List pgStatStatementsRow)
    (resetOk : Bool) :
    (VariantA.Update (Except.ok ⟨rows.map Except.ok, false⟩)).err = false ∧
    (emitted (VariantA.Update (Except.ok ⟨rows.map Except.ok, false⟩)).trace).length =
      6 * rows.length ∧
    (VariantB.Update (Except.ok ⟨rows.map Except.ok, false⟩) resetOk).err = false ∧
    (emitted (VariantB.Update (Except.ok ⟨rows.map Except.ok, false⟩) resetOk).trace).length =
      6 * rows.length := by
  refine ⟨?_, ?_, ?_, ?_⟩
  · rw [VariantA.update_ok_eq_A]
  · rw [emitted_variantA_ok, length_flatten_rowMetrics]
  · rw [VariantB.update_ok_eq_B]
  · rw [emitted_variantB_ok, length_flatten_rowMetrics]

/-- C1: in Variant B, the reset command's outcome never influences what
`Update` emits or returns, and when the pre-reset read fully succeeds the
cycle emits every buffered observation of the batch, in order, and
returns nil — even when the reset command fails. -/
theorem claim_C1_variantB_reset_failure_isolation :
    (∀ (q : Except Unit RowsHandle) (r₁ r₂ : Bool),
      emitted (VariantB.Update q r₁).trace = emitted (VariantB.Update q r₂).trace ∧
      (VariantB.Update q r₁).err = (VariantB.Update q r₂).err) ∧
    (∀ rows : List pgStatStatementsRow,
      (VariantB.Update (Except.ok ⟨rows.map Except.ok, false⟩) false).err = false ∧
      emitted (VariantB.Update (Except.ok ⟨rows.map Except.ok, false⟩) false).trace =
        (rows.map (rowMetrics VariantB.descs)).flatten) := by
  constructor
  · intro q r₁ r₂
    cases q with
    | error e => exact ⟨rfl, rfl⟩
    | ok h =>
        rcases h with ⟨scans, iterErr⟩
        rcases hq : VariantB.readLoop scans with ⟨evs, buf⟩
        cases buf with
        | none =>
            rw [VariantB.update_scan_err_B scans iterErr r₁ evs hq,
              VariantB.update_scan_err_B scans iterErr r₂ evs hq]
            exact ⟨rfl, rfl⟩
        | some batch =>
            cases iterErr with
            | false =>
                rw [VariantB.update_full scans r₁ evs batch hq,
                  VariantB.update_full scans r₂ evs batch hq]
                refine ⟨?_, rfl⟩
                simp only [emitted_append, emitted_close_reset]
            | true =>
                rw [VariantB.update_iter_err scans r₁ evs batch hq,
                  VariantB.update_iter_err scans r₂ evs batch hq]
                exact ⟨rfl, rfl⟩
  · intro rows
    exact ⟨by rw [VariantB.update_ok_eq_B], emitted_variantB_ok rows false⟩

theorem resetAfterReads_cons_queryExec (b : Bool) (l : List Event) :
    resetAfterReads (Event.queryExec b :: l) = resetAfterReads l := rfl

theorem resetAfterReads_cons_close (l : List Event) :
    resetAfterReads (Event.cursorClose :: l) = resetAfterReads l := rfl

theorem resetAfterReads_cons_reset (b : Bool) (l : List Event) :
    resetAfterReads (Event.resetExec b :: l) =
      (l.all (fun e => !(isRowScan e || isCursorClose e)) && resetAfterReads l) := rfl

theorem closeBeforeReset_cons_queryExec (s b : Bool) (l : List Event) :
    closeBeforeReset s (Event.queryExec b :: l) = closeBeforeReset s l := rfl

theorem closeBeforeReset_cons_close (s : Bool) (l : List Event) :
    closeBeforeReset s (Event.cursorClose :: l) = closeBeforeReset true l := rfl

theorem closeBeforeReset_cons_reset (s b : Bool) (l : List Event) :
    closeBeforeReset s (Event.resetExec b :: l) = (s && closeBeforeReset s l) := rfl

/-- C2: in Variant B, in every step sequence of `Update`, the reset step
(if reached) is strictly after the last row-scan step and after the
cursor-close step, and on any error exit (query error, scan error, or
iteration error) the reset step is never reached. -/
theorem claim_C2_variantB_reset_ordering (q : Except Unit RowsHandle)
    (resetOk : Bool) :
    resetAfterReads (VariantB.Update q resetOk).trace = true ∧
    closeBeforeReset false (VariantB.Update q resetOk).trace = true ∧
    ((VariantB.Update q resetOk).err = true →
      resetCount (VariantB.Update q resetOk).trace = 0) := by
  cases q with
  | error e => exact ⟨rfl, rfl, fun _ => rfl⟩
  | ok h =>
      rcases h with ⟨scans, iterErr⟩
      rcases hq : VariantB.readLoop scans with ⟨evs, buf⟩
      have hall : evs.all isRowScan = true := by
        have h2 := VariantB.readLoop_all_scan scans
        rw [hq] at h2
        exact h2
      cases buf with
      | none =>
          rw [VariantB.update_scan_err_B scans iterErr resetOk evs hq]
          refine ⟨?_, ?_, fun _ => ?_⟩
          · rw [resetAfterReads_cons_queryExec]
            exact resetAfterReads_scans evs hall
          · rw [closeBeforeReset_cons_queryExec]
            exact closeBeforeReset_scans evs false hall
          · rw [resetCount_cons_queryExec]
            exact resetCount_scans evs hall
      | some batch =>
          cases iterErr with
          | false =>
              rw [VariantB.update_full scans resetOk evs batch hq]
              refine ⟨?_, ?_, ?_⟩
              · simp only [List.cons_append, List.append_assoc, List.nil_append]
                rw [resetAfterReads_cons_queryExec,
                  resetAfterReads_append_scans _ _ hall,
                  resetAfterReads_cons_close, resetAfterReads_cons_reset,
                  no_scan_close_of_all_emit _ (emit_events_all_emit VariantB.descs batch),
                  resetAfterReads_all_emit _ (emit_events_all_emit VariantB.descs batch)]
                rfl
              · simp only [List.cons_append, List.append_assoc, List.nil_append]
                rw [closeBeforeReset_cons_queryExec,
                  closeBeforeReset_append_scans _ _ _ hall,
                  closeBeforeReset_cons_close, closeBeforeReset_cons_reset,
                  closeBeforeReset_all_emit _ _ (emit_events_all_emit VariantB.descs batch)]
                rfl
              · intro hcontra
                simp at hcontra
          | true =>
              rw [VariantB.update_iter_err scans resetOk evs batch hq]
              refine ⟨?_, ?_, fun _ => ?_⟩
              · simp only [List.cons_append]
                rw [resetAfterReads_cons_queryExec,
                  resetAfterReads_append_scans _ _ hall]
                rfl
              · simp only [List.cons_append]
                rw [closeBeforeReset_cons_queryExec,
                  closeBeforeReset_append_scans _ _ _ hall]
                rfl
              · simp only [List.cons_append]
                rw [resetCount_cons_queryExec, resetCount_append,
                  resetCount_scans _ hall, resetCount_close]

/-- C3 (refuted by the code): Variant B's scan-error exit returns the
error without ever closing the cursor, because this variant has no
`defer rows.Close()` and a failed `Scan` does not auto-close the rows.
Variant A, whose `Update` does defer the close, releases the cursor on
the same exit.  The run: a result set whose first row's `Scan` fails. -/
theorem claim_C3_variantB_scan_error_leaks_cursor :
    VariantB.Update (Except.ok ⟨[Except.error ()], false⟩) true =
      ⟨[Event.queryExec true, Event.rowScan false], true⟩ ∧
    Event.cursorClose ∉
      (VariantB.Update (Except.ok ⟨[Except.error ()], false⟩) true).trace ∧
    Event.cursorClose ∈
      (VariantA.Update (Except.ok ⟨[Except.error ()], false⟩)).trace := by
  refine ⟨rfl, ?_, ?_⟩ <;> decide

/-- C9: Variant A's SELECT produces 8 result columns (no `rows_total`
column) while its `Scan` call passes 9 destinations, so every row's scan
fails with an arity error: on any non-empty result set `Update` returns a
scan error having emitted nothing, and Variant A can only succeed on an
empty result set. -/
theorem claim_C9_variantA_arity_mismatch :
    VariantA.pgStatStatementsQueryColumns.length = 8 ∧
    VariantA.scanDestinationCount = 9 ∧
    (∀ decode, scanWithArity VariantA.pgStatStatementsQueryColumns.length
      VariantA.scanDestinationCount decode = Except.error ()) ∧
    (∀ (decodes : List (Except Unit pgStatStatementsRow)) (iterErr : Bool),
      decodes ≠ [] →
      (VariantA.Update (Except.ok
        ⟨decodes.map (scanWithArity VariantA.pgStatStatementsQueryColumns.length
          VariantA.scanDestinationCount), iterErr⟩)).err = true ∧
      emitted (VariantA.Update (Except.ok
        ⟨decodes.map (scanWithArity VariantA.pgStatStatementsQueryColumns.length
          VariantA.scanDestinationCount), iterErr⟩)).trace = []) ∧
    (VariantA.Update (Except.ok ⟨[], false⟩)).err = false := by
  refine ⟨rfl, rfl, ?_, ?_, rfl⟩
  · intro decode
    simp [scanWithArity, VariantA.pgStatStatementsQueryColumns,
      VariantA.scanDestinationCount]
  · intro decodes iterErr hne
    cases decodes with
    | nil => exact absurd rfl hne
    | cons d rest =>
        have hhead : scanWithArity VariantA.pgStatStatementsQueryColumns.length
            VariantA.scanDestinationCount d = Except.error () := by
          simp [scanWithArity, VariantA.pgStatStatementsQueryColumns,
            VariantA.scanDestinationCount]
        have hloop : VariantA.readLoop ((d :: rest).map
            (scanWithArity VariantA.pgStatStatementsQueryColumns.length
              VariantA.scanDestinationCount)) = ([Event.rowScan false], true) := by
          rw [List.map_cons, hhead]
          rfl
        rw [VariantA.update_scan_err_A _ iterErr _ hloop]
        exact ⟨rfl, rfl⟩

/-- Witness for C9 at the one-row result set. -/
theorem claim_C9_witness :
    (VariantA.Update (Except.ok
      ⟨[Except.error ()].map (scanWithArity VariantA.pgStatStatementsQueryColumns.length
        VariantA.scanDestinationCount), false⟩)).err = true ∧
    emitted (VariantA.Update (Except.ok
      ⟨[Except.error ()].map (scanWithArity VariantA.pgStatStatementsQueryColumns.length
        VariantA.scanDestinationCount), false⟩)).trace = [] :=
  claim_C9_variantA_arity_mismatch.2.2.2.1 [Except.error ()] false
    (List.cons_ne_nil _ _)

/-- C5: for every row, under either variant's descriptors, the row is
never rejected: it always yields exactly six observations sharing one
label triple, and each absent label field surfaces as the literal
"unknown" while each absent numeric field surfaces as the counter value
0.  The last four conjuncts push this through `Update`: a single-row
batch emits exactly these six observations and succeeds, in both
variants. -/
theorem claim_C5_null_defaults (d : VariantDescs) (row : pgStatStatementsRow) :
    (∃ u dn qy v₀ v₁ v₂ v₃ v₄ v₅,
      rowMetrics d row =
        [⟨d.callsTotal, v₀, (u, dn, qy)⟩,
         ⟨d.meanSecondsTotal, v₁, (u, dn, qy)⟩,
         ⟨d.maxSecondsTotal, v₂, (u, dn, qy)⟩,
         ⟨d.rowsTotal, v₃, (u, dn, qy)⟩,
         ⟨d.blockReadSecondsTotal, v₄, (u, dn, qy)⟩,
         ⟨d.blockWriteSecondsTotal, v₅, (u, dn, qy)⟩] ∧
      (row.user.valid = false → u = "unknown") ∧
      (row.datname.valid = false → dn = "unknown") ∧
      (row.query.valid = false → qy = "unknown") ∧
      (row.callsTotal.valid = false → v₀ = 0) ∧
      (row.meanSecondsTotal.valid = false → v₁ = 0) ∧
      (row.maxSecondsTotal.valid = false → v₂ = 0) ∧
      (row.rowsTotal.valid = false → v₃ = 0) ∧
      (row.blockReadSecondsTotal.valid = false → v₄ = 0) ∧
      (row.blockWriteSecondsTotal.valid = false → v₅ = 0)) ∧
    emitted (VariantA.Update (Except.ok ⟨[Except.ok row], false⟩)).trace =
      rowMetrics VariantA.descs row ∧
    (VariantA.Update (Except.ok ⟨[Except.ok row], false⟩)).err = false ∧
    emitted (VariantB.Update (Except.ok ⟨[Except.ok row], false⟩) true).trace =
      rowMetrics VariantB.descs row ∧
    (VariantB.Update (Except.ok ⟨[Except.ok row], false⟩) true).err = false := by
  refine ⟨⟨if row.user.valid then row.user.string else "unknown",
    if row.datname.valid then row.datname.string else "unknown",
    if row.query.valid then row.query.string else "unknown",
    if row.callsTotal.valid then (row.callsTotal.int64 : Rat) else 0,
    if row.meanSecondsTotal.valid then row.meanSecondsTotal.float64 else 0,
    if row.maxSecondsTotal.valid then row.maxSecondsTotal.float64 else 0,
    if row.rowsTotal.valid then (row.rowsTotal.int64 : Rat) else 0,
    if row.blockReadSecondsTotal.valid then row.blockReadSecondsTotal.float64 else 0,
    if row.blockWriteSecondsTotal.valid then row.blockWriteSecondsTotal.float64 else 0,
    rfl, ?_, ?_, ?_, ?_, ?_, ?_, ?_, ?_, ?_⟩, ?_, ?_, ?_, ?_⟩
  · intro h; simp [h]
  · intro h; simp [h]
  · intro h; simp [h]
  · intro h; simp [h]
  · intro h; simp [h]
  · intro h; simp [h]
  · intro h; simp [h]
  · intro h; simp [h]
  · intro h; simp [h]
  · simpa using emitted_variantA_ok [row] false
  · have h := VariantA.update_ok_eq_A [row] false
    simp only [List.map_cons, List.map_nil] at h
    rw [h]
  · simpa using emitted_variantB_ok [row] true
  · have h := VariantB.update_ok_eq_B [row] true
    simp only [List.map_cons, List.map_nil] at h
    rw [h]

/-- A row with every field absent (payload values deliberately junk, to
show the defaults override them). -/
def allNullRow : pgStatStatementsRow :=
  ⟨⟨false, "app"⟩, ⟨false, "prod"⟩, ⟨false, "SELECT 1"⟩, ⟨false, 42⟩,
   ⟨false, 3⟩, ⟨false, 4⟩, ⟨false, 5⟩, ⟨false, 6⟩, ⟨false, 7⟩⟩

/-- Witness for C5 at the all-null row: every label is "unknown", every
counter is 0. -/
theorem claim_C5_witness :
    rowMetrics VariantB.descs allNullRow =
      [⟨VariantB.descs.callsTotal, 0, ("unknown", "unknown", "unknown")⟩,
       ⟨VariantB.descs.meanSecondsTotal, 0, ("unknown", "unknown", "unknown")⟩,
       ⟨VariantB.descs.maxSecondsTotal, 0, ("unknown", "unknown", "unknown")⟩,
       ⟨VariantB.descs.rowsTotal, 0, ("unknown", "unknown", "unknown")⟩,
       ⟨VariantB.descs.blockReadSecondsTotal, 0, ("unknown", "unknown", "unknown")⟩,
       ⟨VariantB.descs.blockWriteSecondsTotal, 0, ("unknown", "unknown", "unknown")⟩] := by
  obtain ⟨u, dn, qy, v₀, v₁, v₂, v₃, v₄, v₅, heq, hu, hdn, hqy, h₀, h₁, h₂, h₃, h₄, h₅⟩ :=
    (claim_C5_null_defaults VariantB.descs allNullRow).1
  rw [heq, hu rfl, hdn rfl, hqy rfl, h₀ rfl, h₁ rfl, h₂ rfl, h₃ rfl, h₄ rfl, h₅ rfl]

/-- C6: for every row in which every field is present, the six emitted
observations carry exactly the source values: the labels equal the row's
string fields and each counter equals the row's numeric field (integer
counters widened without change of value), and a single-row batch pushes
exactly these through `Update` in both variants. -/
theorem claim_C6_identity_law (row : pgStatStatementsRow)
    (hu : row.user.valid = true) (hdn : row.datname.valid = true)
    (hqy : row.query.valid = true) (hc : row.callsTotal.valid = true)
    (hm : row.meanSecondsTotal.valid = true) (hx : row.maxSecondsTotal.valid = true)
    (hr : row.rowsTotal.valid = true) (hbr : row.blockReadSecondsTotal.valid = true)
    (hbw : row.blockWriteSecondsTotal.valid = true) :
    (∀ d : VariantDescs, rowMetrics d row =
      [⟨d.callsTotal, (row.callsTotal.int64 : Rat),
        (row.user.string, row.datname.string, row.query.string)⟩,
       ⟨d.meanSecondsTotal, row.meanSecondsTotal.float64,
        (row.user.string, row.datname.string, row.query.string)⟩,
       ⟨d.maxSecondsTotal, row.maxSecondsTotal.float64,
        (row.user.string, row.datname.string, row.query.string)⟩,
       ⟨d.rowsTotal, (row.rowsTotal.int64 : Rat),
        (row.user.string, row.datname.string, row.query.string)⟩,
       ⟨d.blockReadSecondsTotal, row.blockReadSecondsTotal.float64,
        (row.user.string, row.datname.string, row.query.string)⟩,
       ⟨d.blockWriteSecondsTotal, row.blockWriteSecondsTotal.float64,
        (row.user.string, row.datname.string, row.query.string)⟩]) ∧
    emitted (VariantA.Update (Except.ok ⟨[Except.ok row], false⟩)).trace =
      rowMetrics VariantA.descs row ∧
    emitted (VariantB.Update (Except.ok ⟨[Except.ok row], false⟩) true).trace =
      rowMetrics VariantB.descs row := by
  refine ⟨fun d => ?_, ?_, ?_⟩
  · simp [rowMetrics, hu, hdn, hqy, hc, hm, hx, hr, hbr, hbw]
  · simpa using emitted_variantA_ok [row] false
  · simpa using emitted_variantB_ok [row] true

/-- The fully-present example row of the specification, with the null
write-block time made present. -/
def sampleRowAllValid : pgStatStatementsRow :=
  ⟨⟨true, "app"⟩, ⟨true, "prod"⟩, ⟨true, "SELECT 1"⟩, ⟨true, 42⟩,
   ⟨true, (1 : Rat)/100⟩, ⟨true, (1 : Rat)/50⟩, ⟨true, 1⟩,
   ⟨true, (1 : Rat)/1000⟩, ⟨true, 2⟩⟩

/-- Witness for C6 at the fully-present sample row. -/
theorem claim_C6_witness :
    rowMetrics VariantB.descs sampleRowAllValid =
      [⟨VariantB.descs.callsTotal, ((42 : Int) : Rat), ("app", "prod", "SELECT 1")⟩,
       ⟨VariantB.descs.meanSecondsTotal, (1 : Rat)/100, ("app", "prod", "SELECT 1")⟩,
       ⟨VariantB.descs.maxSecondsTotal, (1 : Rat)/50, ("app", "prod", "SELECT 1")⟩,
       ⟨VariantB.descs.rowsTotal, ((1 : Int) : Rat), ("app", "prod", "SELECT 1")⟩,
       ⟨VariantB.descs.blockReadSecondsTotal, (1 : Rat)/1000, ("app", "prod", "SELECT 1")⟩,
       ⟨VariantB.descs.blockWriteSecondsTotal, 2, ("app", "prod", "SELECT 1")⟩] := by
  have h := (claim_C6_identity_law sampleRowAllValid rfl rfl rfl rfl rfl rfl rfl rfl
    rfl).1 VariantB.descs
  rw [h]
  rfl

/-- Witness for C2 at an input whose scan fails: the error exit reaches
no reset step. -/
theorem claim_C2_witness :
    resetCount (VariantB.Update (Except.ok ⟨[Except.error ()], false⟩) true).trace = 0 :=
  (claim_C2_variantB_reset_ordering (Except.ok ⟨[Except.error ()], false⟩) true).2.2 rfl
